import Mathlib

/-!
Verification development for the cinema webhook bot (`bot_flask.py`).

The Python source is embedded shallowly: pure fragments become Lean
functions, the mutable bot state (subscription set, persistence file,
outbound messages) becomes explicit state passing, and Python exceptions
become `Except` values.  External HTTP traffic (the TMDB metadata API,
the chat platform) is abstracted as explicit outcome values passed to
the functions that would perform the calls; everything the code does
with those outcomes is modelled from the source.

Numeric conventions: Python ints are `ℤ` (or `ℕ` where the source can
only see non-negative values), JSON decimal numbers are `ℚ` with exact
arithmetic, and Python strings are `String`.
-/

/- ===================== Python runtime helpers ===================== -/

/-- Python `round()` applied to the rational `n / d` (`d` positive): nearest
integer, ties go to the even integer (banker's rounding, the Python 3
semantics).  `Int.fdiv n d` is the floor of `n / d`; `r` is the remainder,
so the fractional part is `r / d` and is compared with `1 / 2` by
cross-multiplication. -/
def pythonRoundND (n : ℤ) (d : ℕ) : ℤ :=
  let f : ℤ := Int.fdiv n d
  let r : ℤ := n - f * d
  if 2 * r < (d : ℤ) then f
  else if (d : ℤ) < 2 * r then f + 1
  else if f % 2 = 0 then f else f + 1

/-- Python `round(q)` for a rational `q` (exact model of `round` on the
decimal values the metadata API serves). -/
def pythonRound (q : ℚ) : ℤ := pythonRoundND q.num q.den

/-- Python `int(n / 2)` for an integer `n`: true division produces `n / 2`
exactly (the values in this program are tiny), and `int()` truncates toward
zero. -/
def pyIntHalf (n : ℤ) : ℤ :=
  if 0 ≤ n then ((n.toNat / 2 : ℕ) : ℤ) else -(((-n).toNat / 2 : ℕ) : ℤ)

/-- Python `"⭐" * n` (for `n ≤ 0` the result is the empty string, which the
`Int.toNat` at the call sites produces). -/
def starRepeat (n : ℕ) : String := String.join (List.replicate n "⭐")

/-- Python `f"{q:.1f}"` for a non-negative rational `q`: round to one decimal
place (ties to even) and print with exactly one digit after the point.
The source only ever formats TMDB vote averages (0 to 10), which are
non-negative decimals, so the negative case is irrelevant here. -/
def pyFormat1f (q : ℚ) : String :=
  let n := (pythonRoundND (q.num * 10) q.den).toNat
  toString (n / 10) ++ "." ++ toString (n % 10)

/-- Python `s.split(sep, 1)`: split on the first occurrence of `sep` only.
Returns `[s]` when the separator does not occur, and exactly two pieces
(either possibly empty) when it does. -/
def pySplitOnce (s : String) (sep : Char) : List String :=
  let cs := s.data
  if sep ∈ cs then
    [String.mk (cs.takeWhile (fun c => c ≠ sep)),
     String.mk ((cs.dropWhile (fun c => c ≠ sep)).tail)]
  else [s]

/-- Value of a non-empty all-digit character run, `none` otherwise. -/
def digitsToNat (l : List Char) : Option ℕ :=
  if l ≠ [] ∧ l.all Char.isDigit then
    some (l.foldl (fun a c => a * 10 + (c.toNat - 48)) 0)
  else none

/-- Python `int(s)` on a string: optional surrounding whitespace, an optional
sign, then a non-empty run of decimal digits; anything else raises
`ValueError`.  (Python additionally allows single underscores between
digits; this program only ever parses the digit strings it generated
itself, so that case is not modelled.) -/
def pyInt (s : String) : Except String ℤ :=
  let t := ((s.data.dropWhile Char.isWhitespace).reverse.dropWhile Char.isWhitespace).reverse
  match t with
  | [] => .error ("ValueError: invalid literal for int: " ++ s)
  | c :: rest =>
    if c = '+' then
      match digitsToNat rest with
      | some n => .ok (n : ℤ)
      | none => .error ("ValueError: invalid literal for int: " ++ s)
    else if c = '-' then
      match digitsToNat rest with
      | some n => .ok (-(n : ℤ))
      | none => .error ("ValueError: invalid literal for int: " ++ s)
    else
      match digitsToNat t with
      | some n => .ok (n : ℤ)
      | none => .error ("ValueError: invalid literal for int: " ++ s)

/-- Python truthiness of an environment variable: `os.getenv` returns `None`
when the variable is unset (`none` here), and an empty string is also
falsy. -/
def pyTruthy : Option String → Bool
  | none => false
  | some s => !s.isEmpty

/- ===================== TMDB client (`TMDBClient`) ===================== -/

/-- Outcome of one `requests.get` call, abstracting the network.  `exn` is a
raised `requests.exceptions.RequestException` (connection error, timeout,
too many redirects, ...).  `resp status json` is a delivered HTTP response:
`status` is its status code and `json` is the result of parsing its body
(`none` when the body is not valid JSON, in which case `response.json()`
raises `requests.exceptions.JSONDecodeError`, a `RequestException`
subclass in the requests versions this code runs against). -/
inductive HttpResult (α : Type)
  | exn
  | resp (status : ℕ) (json : Option α)

/-- One movie object as served by the TMDB API.  The source reads it as a
duck-typed JSON dict; each field here models the presence/absence of the
corresponding key.  `genres` models the list of the `name` values of the
`genres` entries (the only thing the source reads from them). -/
structure MovieJson where
  id : Option ℤ
  title : Option String
  release_date : Option String
  poster_path : Option String
  vote_average : Option ℚ
  overview : Option String
  runtime : Option ℕ
  genres : Option (List String)
deriving DecidableEq, Repr

/-- Top-level JSON of a listing response: a JSON object whose `results` key,
when present, holds a list of movie objects (the shape TMDB serves), or a
JSON value that is not an object at all (on which Python `.get` raises
`AttributeError`). -/
inductive ListingJson
  | obj (results : Option (List MovieJson))
  | nonObj
deriving DecidableEq, Repr

/-- Value of one query-string parameter. -/
inductive ParamValue
  | s (v : String)
  | i (v : ℤ)
  | q (v : ℚ)
deriving DecidableEq, Repr

/-- Parameter dict passed by `get_movies`: `{"page": page, "region": "BR"}`. -/
def moviesParams (page : ℤ) : List (String × ParamValue) :=
  [("page", .i page), ("region", .s "BR")]

/-- Parameter dict passed by `get_classic_movies`. -/
def classicsParams (page : ℤ) : List (String × ParamValue) :=
  [("page", .i page), ("sort_by", .s "popularity.desc"), ("vote_average.gte", .q (15/2)),
   ("vote_count.gte", .i 500), ("primary_release_date.lte", .s "2000-12-31")]

/-- `TMDBClient._make_request`: build the full parameter dict (API key and
locale merged with the call's parameters, later entries overriding), issue
`requests.get` with a 10 second timeout, call `raise_for_status` (which
raises `HTTPError` exactly for status codes 400-599), then parse the body
with `response.json()`.  Every `RequestException` is caught and logged and
the function returns `None`; nothing is retried.  The network outcome for
the composed request is abstracted as the argument `r`; the key, endpoint
and parameters are carried for fidelity to the call sites but do not
further constrain the outcome. -/
def _make_request (α : Type) (api_key : String) (endpoint : String)
    (params : List (String × ParamValue)) (r : HttpResult α) : Option α :=
  let _fullParams := [("api_key", ParamValue.s api_key), ("language", ParamValue.s "pt-BR")] ++ params
  let _url := "https://api.themoviedb.org/3/" ++ endpoint
  match r with
  | .exn => none
  | .resp status json =>
    if 400 ≤ status ∧ status < 600 then none
    else
      match json with
      | none => none
      | some v => some v

/-- Python `(x or {}).get("results", [])` where `x` is the `_make_request`
result: `None` falls back to the empty dict, then `results` is looked up
with default `[]`; `.get` on a non-dict raises `AttributeError`. -/
def resultsOrEmpty (x : Option ListingJson) : Except String (List MovieJson) :=
  match x.getD (.obj none) with
  | .obj results => .ok (results.getD [])
  | .nonObj => .error "AttributeError: the parsed JSON has no attribute get"

/-- `TMDBClient.get_movies(category, page)`. -/
def get_movies (api_key category : String) (page : ℤ) (r : HttpResult ListingJson) :
    Except String (List MovieJson) :=
  resultsOrEmpty (_make_request ListingJson api_key ("movie/" ++ category) (moviesParams page) r)

/-- `TMDBClient.get_classic_movies(page)`. -/
def get_classic_movies (api_key : String) (page : ℤ) (r : HttpResult ListingJson) :
    Except String (List MovieJson) :=
  resultsOrEmpty (_make_request ListingJson api_key "discover/movie" (classicsParams page) r)

/- ===================== Persistence (`load_state` / `save_state`) ===================== -/

/-- Parsed content of `persistence.json`.  `jobj f` is a JSON object whose
`subscribed_chats` key, when present, holds a list of integers (the only
shape `save_state` ever writes); `jarr` is a valid JSON document that is a
list instead of an object (Python `.get` does not exist on lists). -/
inductive FileJson
  | jobj (subscribed_chats : Option (List ℤ))
  | jarr (elems : List ℤ)
deriving DecidableEq, Repr

/-- State of `persistence.json` as `load_state` finds it: missing file,
present but not valid JSON, or parsed JSON content. -/
inductive LoadInput
  | missing
  | notJson
  | parsed (j : FileJson)
deriving DecidableEq, Repr

/-- `CinemaBot.load_state`: `set(json.load(f).get("subscribed_chats", []))`,
with `FileNotFoundError` and `json.JSONDecodeError` caught (logging a
warning and leaving the set empty).  A document that parses to a list
escapes the `except` clause: `.get` raises `AttributeError`, which is not
caught. -/
def load_state : LoadInput → Except String (Finset ℤ)
  | .missing => .ok ∅
  | .notJson => .ok ∅
  | .parsed (.jobj f) => .ok (f.getD []).toFinset
  | .parsed (.jarr _) => .error "AttributeError: list object has no attribute get"

/-- Whether `load_state` reaches its `except` clause and logs the warning. -/
def load_state_warns : LoadInput → Bool
  | .missing => true
  | .notJson => true
  | .parsed _ => false

/-- JSON document written by `CinemaBot.save_state`:
`{"subscribed_chats": list(self.subscribed_chats)}`.  Python enumerates the
set in an arbitrary order; the model picks the sorted enumeration as the
representative (every claim about the file is at the set level). -/
def save_state_json (s : Finset ℤ) : FileJson :=
  .jobj (some (s.sort (· ≤ ·)))

/- ===================== Bot controller state ===================== -/

/-- One inline keyboard button (`telebot.types.InlineKeyboardButton`). -/
structure Button where
  text : String
  callback_data : String
deriving DecidableEq, Repr

/-- One outbound `send_message` call: target chat, text, and the attached
inline buttons (empty for plain messages; the reply-keyboard markup of the
start greeting is not an inline button list and is not modelled). -/
structure SentMsg where
  chat : ℤ
  text : String
  buttons : List Button
deriving DecidableEq, Repr

/-- Mutable state touched by the handlers: the in-memory subscription set,
the persistence file on disk (`none` = missing), and the log of outbound
messages in send order. -/
structure BotState where
  subscribed_chats : Finset ℤ
  file : Option FileJson
  sent : List SentMsg
deriving DecidableEq

/-- Append one plain outbound message. -/
def sendText (st : BotState) (chat : ℤ) (text : String) : BotState :=
  { st with sent := st.sent ++ [{ chat := chat, text := text, buttons := [] }] }

/-- `CinemaBot.save_state`: overwrite `persistence.json` with the current
set. -/
def save_state (st : BotState) : BotState :=
  { st with file := some (save_state_json st.subscribed_chats) }

/-- `CinemaBot.handle_start`: add the chat id to the set, persist, send the
greeting (with the reply keyboard). -/
def handle_start (st : BotState) (chat_id : ℤ) : BotState :=
  let st1 := { st with subscribed_chats := insert chat_id st.subscribed_chats }
  let st2 := save_state st1
  sendText st2 chat_id "Olá! Sou seu Bot de Cinema. Use os botões para descobrir filmes!"

/-- `CinemaBot.handle_stop`: only when the chat id is subscribed, remove it,
persist, and confirm; otherwise fall through doing nothing at all. -/
def handle_stop (st : BotState) (chat_id : ℤ) : BotState :=
  if chat_id ∈ st.subscribed_chats then
    sendText (save_state { st with subscribed_chats := st.subscribed_chats.erase chat_id })
      chat_id "Você não receberá mais sugestões. Digite /start para reativar."
  else st

/- ===================== Rendering ===================== -/

/-- Python `rating or 0` for the argument of `format_rating`: `None` (and
numeric zero, which maps to itself) falls back to `0`. -/
def pyOr0 (rating : Option ℚ) : ℚ :=
  match rating with
  | none => 0
  | some q => q

/-- Number of filled stars the source computes: `int(round(rating) / 2)` -
the rating is rounded to the nearest integer first, and only then halved
(`int()` truncating toward zero; `Int.toNat` realises Python's
`"⭐" * k = ""` for `k ≤ 0`). -/
def starCount (r : ℚ) : ℕ := (pyIntHalf (pythonRound r)).toNat

/-- `CinemaBot.format_rating`: `"⭐" * int(round(rating or 0) / 2)`. -/
def format_rating (rating : Option ℚ) : String :=
  starRepeat (starCount (pyOr0 rating))

/-- `CinemaBot._format_movie_details_text`: the caption composed for the
detail view. -/
def _format_movie_details_text (movie : MovieJson) : String :=
  let title := movie.title.getD "N/A"
  let rating := movie.vote_average.getD 0
  let overview := movie.overview.getD ""
  let release_date := movie.release_date.getD "N/A"
  let text := "🎬 *" ++ title ++ "*\n\n" ++ format_rating (some rating) ++ " (" ++
    pyFormat1f rating ++ "/10)\n📅 *Lançamento:* " ++ release_date
  let genres := movie.genres.getD []
  let text := if genres.isEmpty then text
    else text ++ "\n🎭 *Gêneros:* " ++ String.intercalate ", " genres
  let text := match movie.runtime with
    | none => text
    | some rt =>
      if rt = 0 then text
      else text ++ "\n⏳ *Duração:* " ++ toString (rt / 60) ++ "h " ++ toString (rt % 60) ++ "min"
  if overview.isEmpty then text
  else text ++ "\n\n📖 *Sinopse:*\n_" ++ overview ++ "_"

/- ===================== List rendering (`send_movie_list`) ===================== -/

/-- One button of the movie list: `callback_data = f"details_{movie['id']}"`
and label `f"{movie['title']} ({movie.get('release_date', '????')[:4]})"`.
The two bracketed subscripts raise `KeyError` when the key is absent. -/
def movieButton (movie : MovieJson) : Except String Button :=
  match movie.id with
  | none => .error "KeyError: id"
  | some i =>
    match movie.title with
    | none => .error "KeyError: title"
    | some t =>
      .ok { text := t ++ " (" ++ (movie.release_date.getD "????").take 4 ++ ")",
            callback_data := "details_" ++ toString i }

/-- `CinemaBot.send_movie_list`: announce the search, fetch the first page
(the classics query for that one category, the category listing
otherwise), reply with a failure text when nothing came back, and
otherwise send one inline button per movie of the first five. -/
def send_movie_list (st : BotState) (chat_id : ℤ) (category title api_key : String)
    (r : HttpResult ListingJson) : Except String BotState :=
  let st1 := sendText st chat_id ("Buscando *" ++ title ++ "*...")
  match (if category = "classics" then get_classic_movies api_key 1 r
         else get_movies api_key category 1 r) with
  | .error e => .error e
  | .ok movies =>
    if movies.isEmpty then
      .ok (sendText st1 chat_id "❌ Não encontrei filmes para esta categoria.")
    else
      match (movies.take 5).mapM movieButton with
      | .error e => .error e
      | .ok buttons =>
        .ok { st1 with sent := st1.sent ++
          [{ chat := chat_id, text := "Selecione um filme da lista de *" ++ title ++ "*:",
             buttons := buttons }] }

/- ===================== Callback dispatch ===================== -/

/-- Observable outcome of a callback query that did not raise: the tap was
acknowledged, and `openedDetails` is the movie id handed to
`show_movie_details` (or `none` when the action matched nothing). -/
structure CallbackResult where
  acked : Bool
  openedDetails : Option ℤ
deriving DecidableEq, Repr

/-- `CinemaBot.handle_callback_query`: acknowledge the tap, then
`action, value = call.data.split('_', 1)` - tuple unpacking raises
`ValueError` unless the split produced exactly two parts - and dispatch
`details` actions to the detail view with `int(value)`. -/
def handle_callback_query (data : String) : Except String CallbackResult :=
  match pySplitOnce data '_' with
  | [action, value] =>
    if action = "details" then
      match pyInt value with
      | .ok n => .ok { acked := true, openedDetails := some n }
      | .error e => .error e
    else .ok { acked := true, openedDetails := none }
  | _ => .error "ValueError: not enough values to unpack (expected 2, got 1)"

/- ===================== Webhook endpoint ===================== -/

/-- Flask view `get_message` on the secret path.  With content type
`application/json` the body is decoded, turned into an `Update` (carried
here as the raw string) and handed to `bot.process_new_updates`, and the
view returns `('!', 200)`.  Any other content type takes the `else`
branch, which evaluates `telebot.abort(403)`: the `telebot` module
(pyTelegramBotAPI) defines no `abort`, so the attribute lookup raises
`AttributeError` (the author evidently meant Flask's `abort`).  The first
component of the result is the list of updates dispatched into the bot
controller. -/
def get_message (contentType : Option String) (body : String) :
    List String × Except String (String × ℕ) :=
  if contentType = some "application/json" then
    ([body], .ok ("!", 200))
  else
    ([], .error "AttributeError: module telebot has no attribute abort")

/- ===================== Module-level startup ===================== -/

/-- The four environment variables read at import time; `none` means the
variable is unset. -/
structure EnvConfig where
  telegram_bot_token : Option String
  tmdb_api_key : Option String
  telegram_bot_username : Option String
  render_external_url : Option String
deriving DecidableEq, Repr

/-- The startup check `not all([TOKEN, TMDB_API_KEY, BOT_USERNAME])`:
truthiness of the three variables; `RENDER_EXTERNAL_URL` is not part of
the check. -/
def configMissing (c : EnvConfig) : Bool :=
  !(pyTruthy c.telegram_bot_token && pyTruthy c.tmdb_api_key && pyTruthy c.telegram_bot_username)

/-- Observable result of importing the module: whether the critical
configuration error was logged, and whether the Flask app was built and
its routes registered (i.e. the process goes on to serve). -/
structure ModuleState where
  criticalLogged : Bool
  serving : Bool
deriving DecidableEq, Repr

/-- Module-level execution: the configuration check only logs (the source
comments out any exit on purpose), the client/bot/Flask objects are
constructed, and the route decorators run.  The one way import can die is
`@app.route('/' + TOKEN)`: when `TOKEN` is `None` the string concatenation
raises `TypeError`.  Otherwise the module serves, half-configured or
not. -/
def module_startup (c : EnvConfig) : Except String ModuleState :=
  let critical := configMissing c
  match c.telegram_bot_token with
  | none => .error "TypeError: can only concatenate str (not NoneType) to str"
  | some _ => .ok { criticalLogged := critical, serving := true }

/- ===================== Spec-side definitions ===================== -/

/-- Modelled from the spec's words, for comparison with the source: a star
rating computed as `round(rating/2)` filled stars. -/
def specStarCount (r : ℚ) : ℕ := (pythonRoundND r.num (2 * r.den)).toNat

/-- Modelled from the spec's words, for comparison with the source: one
inline button per item labeled `"<title> (<year or '????'>)"` - the year
being the first four characters of the release date, `"????"` when the
release date is absent - with a Callback Token of `details_<id>`. -/
def specButtonOfMovie (movie : MovieJson) : Button :=
  { text := movie.title.getD "" ++ " (" ++ (movie.release_date.getD "????").take 4 ++ ")",
    callback_data := "details_" ++ toString (movie.id.getD 0) }

/- ===================== Sample inputs ===================== -/

/-- Movie 550 with a 7.0 vote average, as the detail endpoint would serve
it (only the fields the rendering reads). -/
def sampleMovie7 : MovieJson :=
  { id := some 550, title := some "Clube da Luta", release_date := some "1999-10-15",
    poster_path := none, vote_average := some 7, overview := none, runtime := none,
    genres := none }

/-- Movie object with every optional field absent. -/
def emptyMovie : MovieJson :=
  { id := none, title := none, release_date := none, poster_path := none,
    vote_average := none, overview := none, runtime := none, genres := none }

/-- Environment with the TMDB key unset and everything else present. -/
def cfgNoTmdbKey : EnvConfig :=
  { telegram_bot_token := some "123:ABC", tmdb_api_key := none,
    telegram_bot_username := some "cinema_bot", render_external_url := some "https://x" }

/-- Environment with all four variables present and non-empty. -/
def cfgFull : EnvConfig :=
  { telegram_bot_token := some "123:ABC", tmdb_api_key := some "tmdbkey",
    telegram_bot_username := some "cinema_bot", render_external_url := some "https://x" }

/-- Bot state with no subscriptions, no persistence file and nothing sent. -/
def botState0 : BotState :=
  { subscribed_chats := ∅, file := none, sent := [] }

/- ===================== Helper lemmas ===================== -/

/-- Rounding a non-negative fraction gives a non-negative integer. -/
lemma pythonRoundND_nonneg (n : ℤ) (d : ℕ) (hn : 0 ≤ n) : 0 ≤ pythonRoundND n d := by
  have hf : 0 ≤ Int.fdiv n d := Int.fdiv_nonneg hn (by positivity)
  unfold pythonRoundND
  dsimp only
  split
  · exact hf
  · split
    · omega
    · split
      · exact hf
      · omega

/-- On non-negative integers, truncating half agrees with natural division
by two. -/
lemma pyIntHalf_toNat (n : ℤ) (hn : 0 ≤ n) : (pyIntHalf n).toNat = n.toNat / 2 := by
  unfold pyIntHalf
  rw [if_pos hn, Int.toNat_natCast]

/-- When both bracketed keys are present, the button the source builds is
exactly the button the spec describes. -/
lemma movieButton_eq_spec (m : MovieJson) (h1 : m.id.isSome) (h2 : m.title.isSome) :
    movieButton m = .ok (specButtonOfMovie m) := by
  obtain ⟨i, hi⟩ := Option.isSome_iff_exists.mp h1
  obtain ⟨t, ht⟩ := Option.isSome_iff_exists.mp h2
  simp [movieButton, specButtonOfMovie, hi, ht]

/-- Building all buttons of a list succeeds, one spec button per movie, when
every movie carries the two bracketed keys. -/
lemma mapM_movieButton (l : List MovieJson) (h : ∀ m ∈ l, m.id.isSome ∧ m.title.isSome) :
    l.mapM movieButton = .ok (l.map specButtonOfMovie) := by
  induction l with
  | nil => rfl
  | cons m tl ih =>
    have hm := h m (List.mem_cons_self m tl)
    rw [List.mapM_cons, movieButton_eq_spec m hm.1 hm.2,
      ih (fun x hx => h x (List.mem_cons_of_mem m hx))]
    rfl

/- ===================== C1 ===================== -/

/-- C1 counterexample: the source rounds the rating first and halves second,
so a 7.0 rating renders three filled stars, not the four the claim
(`round(rating/2)`, hence `round(3.5) = 4`) demands. -/
theorem star_rating_seven_cex :
    starCount 7 = 3 ∧ specStarCount 7 = 4 ∧
    format_rating (some 7) = "⭐⭐⭐" ∧
    _format_movie_details_text sampleMovie7 =
      "🎬 *Clube da Luta*\n\n⭐⭐⭐ (7.0/10)\n📅 *Lançamento:* 1999-10-15" ∧
    _format_movie_details_text sampleMovie7 ≠
      "🎬 *Clube da Luta*\n\n⭐⭐⭐⭐ (7.0/10)\n📅 *Lançamento:* 1999-10-15" := by
  refine ⟨by decide, by decide, by decide, by decide, by decide⟩

/-- C1 amended: for every movie rendered, the star line shows
`int(round(rating) / 2)` filled stars - the 0-10 rating rounded to the
nearest integer (ties to even) and then halved rounding down - followed by
the numeric rating to one decimal; a rating of 7.0 yields 3 filled stars
rendered as `"⭐⭐⭐ (7.0/10)"`, and a rating of 0 or an absent rating
yields 0 stars, the line rendering as `" (0.0/10)"` (empty star string,
then the separating space). -/
theorem star_rating_amended :
    (∀ r : ℚ, 0 ≤ r → starCount r = (pythonRound r).toNat / 2) ∧
    format_rating (some 0) = "" ∧ format_rating none = "" ∧
    _format_movie_details_text sampleMovie7 =
      "🎬 *Clube da Luta*\n\n" ++ starRepeat 3 ++ " (7.0/10)\n📅 *Lançamento:* 1999-10-15" ∧
    _format_movie_details_text emptyMovie =
      "🎬 *N/A*\n\n" ++ starRepeat 0 ++ " (0.0/10)\n📅 *Lançamento:* N/A" := by
  refine ⟨fun r hr => ?_, by decide, by decide, by decide, by decide⟩
  have hnum : 0 ≤ pythonRound r :=
    pythonRoundND_nonneg r.num r.den (Rat.num_nonneg.mpr hr)
  unfold starCount
  exact pyIntHalf_toNat _ hnum

/-- C1 witness: the amended star count applied at the concrete rating 7. -/
theorem star_rating_amended_witness :
    (0:ℚ) ≤ 7 ∧ starCount 7 = (pythonRound 7).toNat / 2 :=
  ⟨by decide, star_rating_amended.1 7 (by decide)⟩

/- ===================== C2 ===================== -/

/-- C2 counterexample: the Callback Token `"bogus"` (no separator) is not
ignored - tuple unpacking of the one-element split raises `ValueError`,
so the dispatcher crashes instead of returning. -/
theorem callback_bogus_raises :
    handle_callback_query "bogus" =
      .error "ValueError: not enough values to unpack (expected 2, got 1)" ∧
    ¬ ∃ res, handle_callback_query "bogus" = Except.ok res :=
  ⟨rfl, fun ⟨_, h⟩ => Except.noConfusion h⟩

/-- C2 amended: a Callback Token of the form `details_<id>` opens the detail
view for that movie id (`"details_550"` reaches movie 550, after the tap is
acknowledged), but a token containing no separator is not rejected
silently: the unpacking of `split('_', 1)` raises an uncaught
`ValueError`, crashing the dispatcher. -/
theorem callback_dispatch :
    handle_callback_query "details_550" = .ok { acked := true, openedDetails := some 550 } ∧
    ∀ s : String, '_' ∉ s.data →
      handle_callback_query s =
        .error "ValueError: not enough values to unpack (expected 2, got 1)" := by
  refine ⟨rfl, fun s h => ?_⟩
  have hsplit : pySplitOnce s '_' = [s] := by
    unfold pySplitOnce
    rw [if_neg h]
  unfold handle_callback_query
  rw [hsplit]

/-- C2 witness: the crash branch applied at a concrete separator-free
token. -/
theorem callback_dispatch_witness :
    handle_callback_query "xyz" =
      .error "ValueError: not enough values to unpack (expected 2, got 1)" :=
  callback_dispatch.2 "xyz" (by decide)

/- ===================== C3 ===================== -/

/-- C3: a POST to the secret path with a non-JSON content type dispatches no
update into the bot controller, but it does not produce the claimed 403
response either: the `else` branch evaluates `telebot.abort(403)` and the
`telebot` module has no `abort`, so the request dies with an uncaught
`AttributeError` (an HTTP 500 from Flask).  The guard against body
processing holds; the 403 does not. -/
theorem webhook_non_json_rejected (body : String) :
    get_message (some "text/plain") body =
      ([], .error "AttributeError: module telebot has no attribute abort") :=
  rfl

/- ===================== C4 ===================== -/

/-- C4 counterexample: with the TMDB API key absent (and everything else
present) the module logs the critical configuration error and then serves
anyway - the startup does not abort. -/
theorem startup_serves_without_key :
    cfgNoTmdbKey.tmdb_api_key = none ∧
    module_startup cfgNoTmdbKey = .ok { criticalLogged := true, serving := true } :=
  ⟨rfl, rfl⟩

/-- C4 amended: when any of bot token, metadata API key or bot username is
absent (or empty) the module logs a critical error but continues to build
the app and serve half-configured; the external base URL is never checked.
The only absence that stops the process is the bot token, and that stop is
an uncaught `TypeError` while concatenating the webhook route path, not a
deliberate refusal. -/
theorem startup_logs_but_serves (c : EnvConfig) :
    (∀ t, c.telegram_bot_token = some t →
      module_startup c = .ok { criticalLogged := configMissing c, serving := true }) ∧
    (c.telegram_bot_token = none →
      module_startup c = .error "TypeError: can only concatenate str (not NoneType) to str") := by
  constructor
  · intro t ht
    unfold module_startup
    rw [ht]
  · intro h
    unfold module_startup
    rw [h]

/-- C4 witness: the fully configured environment starts serving with no
critical log. -/
theorem startup_logs_but_serves_witness :
    module_startup cfgFull = .ok { criticalLogged := configMissing cfgFull, serving := true } :=
  (startup_logs_but_serves cfgFull).1 "123:ABC" rfl

/- ===================== C5 ===================== -/

/-- C5 counterexample: `raise_for_status` only raises for 400-599, so a
non-2xx response outside that range (here a 304 with a valid JSON body)
is not mapped to the empty list - both fetchers return its results. -/
theorem fetch_non2xx_passthrough :
    get_movies "k" "popular" 1 (.resp 304 (some (.obj (some [sampleMovie7])))) =
      .ok [sampleMovie7] ∧
    get_classic_movies "k" 1 (.resp 304 (some (.obj (some [sampleMovie7])))) =
      .ok [sampleMovie7] ∧
    ¬ (200 ≤ 304 ∧ 304 ≤ 299) ∧
    (Except.ok [sampleMovie7] : Except String (List MovieJson)) ≠ .ok [] :=
  ⟨rfl, rfl, by omega, by simp⟩

/-- C5 amended: for every category and page, `get_movies` and
`get_classic_movies` return the empty list and never raise when the
underlying HTTP call raises (connection error, timeout, ...), returns a
4xx or 5xx status, or returns a body that is not valid JSON; a delivered
non-error status outside 400-599 is treated like a success instead. -/
theorem fetch_failure_empty (api_key category : String) (page : ℤ)
    (r : HttpResult ListingJson)
    (h : r = .exn ∨ (∃ st js, r = .resp st js ∧ 400 ≤ st ∧ st < 600) ∨
      (∃ st, r = .resp st none)) :
    get_movies api_key category page r = .ok [] ∧
    get_classic_movies api_key page r = .ok [] := by
  rcases h with rfl | ⟨st, js, rfl, h1, h2⟩ | ⟨st, rfl⟩
  · exact ⟨rfl, rfl⟩
  · unfold get_movies get_classic_movies resultsOrEmpty _make_request
    dsimp only
    rw [if_pos (And.intro h1 h2)]
    exact ⟨rfl, rfl⟩
  · unfold get_movies get_classic_movies resultsOrEmpty _make_request
    dsimp only
    by_cases hc : 400 ≤ st ∧ st < 600
    · rw [if_pos hc]
      exact ⟨rfl, rfl⟩
    · rw [if_neg hc]
      exact ⟨rfl, rfl⟩

/-- C5 witness: the failure policy applied to a raised request exception. -/
theorem fetch_failure_empty_witness :
    get_movies "k" "popular" 1 HttpResult.exn = .ok [] ∧
    get_classic_movies "k" 1 HttpResult.exn = .ok [] :=
  fetch_failure_empty "k" "popular" 1 HttpResult.exn (Or.inl rfl)

/- ===================== C6 ===================== -/

/-- C6: for every chat id and starting state, start - stop - start leaves the
chat id in the Subscription Set exactly once (set semantics), and after
each of the three mutations the file on disk holds exactly the
then-current set. -/
theorem start_stop_start_once (st : BotState) (chat : ℤ) :
    ((handle_start (handle_stop (handle_start st chat) chat) chat).subscribed_chats.filter
      (fun x => x = chat)).card = 1 ∧
    (handle_start st chat).file = some (save_state_json (handle_start st chat).subscribed_chats) ∧
    (handle_stop (handle_start st chat) chat).file =
      some (save_state_json (handle_stop (handle_start st chat) chat).subscribed_chats) ∧
    (handle_start (handle_stop (handle_start st chat) chat) chat).file =
      some (save_state_json
        (handle_start (handle_stop (handle_start st chat) chat) chat).subscribed_chats) := by
  simp [handle_start, handle_stop, save_state, sendText, Finset.mem_insert_self,
    Finset.filter_eq']

/- ===================== C7 ===================== -/

/-- C7: saving any set of chat ids (the empty one included) and loading the
written document on a fresh store reproduces exactly the same set. -/
theorem save_load_roundtrip (s : Finset ℤ) :
    load_state (.parsed (save_state_json s)) = .ok s := by
  simp [load_state, save_state_json, Finset.sort_toFinset]

/- ===================== C8 ===================== -/

/-- C8 counterexample: a persistence file holding the valid JSON document
`[1, 2]` is malformed content for the store, yet `load_state` does not
return an empty set with a warning - the uncaught `AttributeError` from
`.get` on a list fails the process. -/
theorem load_list_content_crashes :
    load_state (.parsed (.jarr [1, 2])) =
      .error "AttributeError: list object has no attribute get" ∧
    ¬ ∃ s, load_state (.parsed (.jarr [1, 2])) = Except.ok s :=
  ⟨rfl, fun ⟨_, h⟩ => Except.noConfusion h⟩

/-- C8 amended: `load_state` returns the empty Subscription Set and logs only
a warning when the persistence file is missing or its content is not
parseable as JSON; content that parses to something other than a JSON
object escapes the handler and raises instead. -/
theorem load_missing_or_unparsable_empty (inp : LoadInput)
    (h : inp = .missing ∨ inp = .notJson) :
    load_state inp = .ok ∅ ∧ load_state_warns inp = true := by
  rcases h with rfl | rfl
  · exact ⟨rfl, rfl⟩
  · exact ⟨rfl, rfl⟩

/-- C8 witness: the empty-set fallback applied to the missing file. -/
theorem load_missing_or_unparsable_empty_witness :
    load_state LoadInput.missing = .ok ∅ ∧ load_state_warns LoadInput.missing = true :=
  load_missing_or_unparsable_empty LoadInput.missing (Or.inl rfl)

/- ===================== C9 ===================== -/

/-- C9: for every category request - the classics category through its
discovery query and every other category through its listing - whose
first page came back with `movies`, `send_movie_list` replies "no movies
found" and sends no button list when the list is empty, and otherwise
sends one inline button per item of the first five, labeled
`"<title> (<year or '????'>)"` with Callback Token `details_<id>` exactly
as the spec describes (`specButtonOfMovie`); the button list never exceeds
five entries. -/
theorem send_movie_list_behavior (st : BotState) (chat : ℤ) (category title api_key : String)
    (movies : List MovieJson)
    (hfields : ∀ m ∈ movies, m.id.isSome ∧ m.title.isSome) :
    (movies = [] →
      send_movie_list st chat category title api_key (.resp 200 (some (.obj (some movies)))) =
        .ok (sendText (sendText st chat ("Buscando *" ++ title ++ "*..."))
          chat "❌ Não encontrei filmes para esta categoria.")) ∧
    (movies ≠ [] →
      send_movie_list st chat category title api_key (.resp 200 (some (.obj (some movies)))) =
        .ok { st with sent := st.sent ++
          [{ chat := chat, text := "Buscando *" ++ title ++ "*...", buttons := [] },
           { chat := chat, text := "Selecione um filme da lista de *" ++ title ++ "*:",
             buttons := (movies.take 5).map specButtonOfMovie }] }) ∧
    ((movies.take 5).map specButtonOfMovie).length = min 5 movies.length := by
  have hmov : get_movies api_key category 1 (.resp 200 (some (.obj (some movies)))) =
      .ok movies := by
    unfold get_movies resultsOrEmpty _make_request
    dsimp only
    rw [if_neg (by omega : ¬ (400 ≤ 200 ∧ 200 < 600))]
    rfl
  have hcls : get_classic_movies api_key 1 (.resp 200 (some (.obj (some movies)))) =
      .ok movies := by
    unfold get_classic_movies resultsOrEmpty _make_request
    dsimp only
    rw [if_neg (by omega : ¬ (400 ≤ 200 ∧ 200 < 600))]
    rfl
  have hfetch : (if category = "classics" then
        get_classic_movies api_key 1 (.resp 200 (some (.obj (some movies))))
      else get_movies api_key category 1 (.resp 200 (some (.obj (some movies))))) =
      .ok movies := by
    by_cases hc : category = "classics"
    · rw [if_pos hc]
      exact hcls
    · rw [if_neg hc]
      exact hmov
  refine ⟨?_, ?_, ?_⟩
  · intro hnil
    subst hnil
    unfold send_movie_list
    rw [hfetch]
    rfl
  · intro hne
    have hempty : movies.isEmpty = false := by simp [List.isEmpty_iff, hne]
    unfold send_movie_list
    rw [hfetch]
    dsimp only
    rw [hempty,
      mapM_movieButton (movies.take 5) (fun m hm => hfields m (List.take_subset 5 movies hm))]
    simp [sendText]
  · simp

/-- C9 witness: the button-count bound applied to a concrete one-movie page
of the classics category. -/
theorem send_movie_list_behavior_witness :
    (([sampleMovie7].take 5).map specButtonOfMovie).length = min 5 [sampleMovie7].length :=
  (send_movie_list_behavior botState0 1 "classics" "Clássicos" "k" [sampleMovie7]
    (by decide)).2.2

/- ===================== C10 ===================== -/

/-- C10: a stop command from a chat id that is not subscribed is a complete
no-op - the state (subscription set, persistence file, outbound messages)
is returned unchanged. -/
theorem stop_unsubscribed_noop (st : BotState) (chat : ℤ)
    (h : chat ∉ st.subscribed_chats) :
    handle_stop st chat = st := by
  unfold handle_stop
  rw [if_neg h]

/-- C10 witness: the no-op applied to the empty state. -/
theorem stop_unsubscribed_noop_witness :
    (5:ℤ) ∉ botState0.subscribed_chats ∧ handle_stop botState0 5 = botState0 :=
  ⟨by decide, stop_unsubscribed_noop botState0 5 (by decide)⟩
